import Mathlib

/-!
Shallow embedding of the session-token and media-asset core of the
BackendApp repository (Express/Mongoose controllers), together with proofs
of the behavioural properties claimed by its specification.

Conventions of the embedding:
* A JWT is modelled as a `Token` record carrying the signed claims
  (principal id, issued-at tick, expiry tick) and the secret it was signed
  with; `jwtVerify` models `jwt.verify`, succeeding exactly when the secret
  matches and the current clock is before the expiry.
* The signing clock advances strictly between signing events, modelling the
  issued-at timestamps of successive `jwt.sign` calls; this makes freshly
  minted tokens distinct from previously minted ones.
* The document store is a `List User` / `List Video`; `findById` models
  `Model.findById`, `updateById` models `findByIdAndUpdate` / `doc.save()`.
* Thrown `ApiError`s are modelled with `Except ApiError`; every stateful
  operation also returns the (possibly updated) store so that the absence
  of writes on failure paths is expressible.
* Side effects relevant to the claims (Cloudinary upload, local staged-file
  unlink, Cloudinary destroy, database writes/deletes) are recorded in an
  `Event` trace in program order.
-/

/-- An HTTP-level error thrown by the controllers (`ApiError` in the source):
a status code and a message. -/
structure ApiError where
  statusCode : Nat
  message : String
deriving DecidableEq, Repr

/-- A signed JWT, modelled by its claims: the principal id (`_id` claim),
the issued-at tick, the expiry tick, and the secret used for signing. -/
structure Token where
  userId : Nat
  iat : Nat
  exp : Nat
  secret : Nat
deriving DecidableEq, Repr

instance instDecEqExceptApiError {a : Type} [DecidableEq a] :
    DecidableEq (Except ApiError a) := fun x y =>
  match x, y with
  | .ok v, .ok w => decidable_of_iff (v = w) (by simp)
  | .error v, .error w => decidable_of_iff (v = w) (by simp)
  | .ok _, .error _ => isFalse (by simp)
  | .error _, .ok _ => isFalse (by simp)

/-- Models `process.env.ACCESS_TOKEN_SECRET`. -/
def ACCESS_TOKEN_SECRET : Nat := 0

/-- Models `process.env.REFRESH_TOKEN_SECRET`. -/
def REFRESH_TOKEN_SECRET : Nat := 1

/-- Models the access-token expiry (`ACCESS_TOKEN_EXPIRY`), in clock ticks. -/
def ACCESS_TOKEN_TTL : Nat := 86400

/-- Models the refresh-token expiry (`REFRESH_TOKEN_EXPIRY`), in clock ticks. -/
def REFRESH_TOKEN_TTL : Nat := 864000

/-- Models `jwt.verify(token, secret)` evaluated at clock `now`: returns the
decoded principal id when the token was signed with `secret` and has not
expired, and `none` (the library throws) otherwise. -/
def jwtVerify (t : Token) (secret : Nat) (now : Nat) : Option Nat :=
  if t.secret = secret ∧ now < t.exp then some t.userId else none

/-- A `User` document (the Principal): identity fields, the credential hash,
the persisted long-lived (refresh) token, and the two remote asset slots. -/
structure User where
  id : Nat
  username : String
  email : String
  fullName : String
  password : String
  refreshToken : Option Token
  avatar : String
  coverImage : String
deriving DecidableEq, Repr

/-- A user as returned by `.select("-password -refreshToken")`: the password
and long-lived-token fields are stripped. -/
structure SafeUser where
  id : Nat
  username : String
  email : String
  fullName : String
  avatar : String
  coverImage : String
deriving DecidableEq, Repr

/-- Models the `.select("-password -refreshToken")` projection. -/
def User.strip (u : User) : SafeUser :=
  ⟨u.id, u.username, u.email, u.fullName, u.avatar, u.coverImage⟩

/-- Models `User.findById(id)` over the list-of-documents store. -/
def findById (db : List User) (uid : Nat) : Option User :=
  db.find? (fun u => u.id == uid)

/-- Models `User.findByIdAndUpdate(id, …)` / loading a document and calling
`doc.save()`: applies `f` to the document(s) with the given id. -/
def updateById (db : List User) (uid : Nat) (f : User → User) : List User :=
  db.map (fun u => if u.id = uid then f u else u)

/-- Models `generateAccessAndRefreshToken(userId)`
(src/src/controllers/user.controller.js lines 9-23): loads the user, signs a
fresh access token and a fresh refresh token, persists the refresh token on
the user document, and returns both tokens together with the updated store
and advanced clock. Any failure is caught and rethrown as a 500 `ApiError`. -/
def generateAccessAndRefreshToken (db : List User) (clock : Nat) (userId : Nat) :
    Except ApiError (Token × Token × List User × Nat) :=
  match findById db userId with
  | none => .error ⟨500, "something went wrong while generating access and refresh token"⟩
  | some user =>
    let accessToken : Token := ⟨user.id, clock, clock + ACCESS_TOKEN_TTL, ACCESS_TOKEN_SECRET⟩
    let refreshToken : Token :=
      ⟨user.id, clock + 1, clock + 1 + REFRESH_TOKEN_TTL, REFRESH_TOKEN_SECRET⟩
    let db2 := updateById db user.id (fun u => { u with refreshToken := some refreshToken })
    .ok (accessToken, refreshToken, db2, clock + 2)

/-- Models `refreshAccessToken` (src/src/controllers/user.controller.js lines
172-219), the `rotate` operation: verify the presented long-lived token, load
the principal, reject with 401 if the stored token does not exactly match the
presented one, otherwise mint and persist a fresh pair. The store and clock
are returned on every path, so failure paths visibly leave them unchanged.
The controller's catch-all maps every thrown error to a 401. -/
def refreshAccessToken (db : List User) (clock : Nat) (incoming : Option Token) :
    Except ApiError (Token × Token) × List User × Nat :=
  match incoming with
  | none => (.error ⟨401, "unauthorized request"⟩, db, clock)
  | some t =>
    match jwtVerify t REFRESH_TOKEN_SECRET clock with
    | none => (.error ⟨401, "jwt verification failed"⟩, db, clock)
    | some uid =>
      match findById db uid with
      | none => (.error ⟨401, "Invalid refresh token"⟩, db, clock)
      | some user =>
        if user.refreshToken = some t then
          match generateAccessAndRefreshToken db clock user.id with
          | .ok (a, r, db2, clock2) => (.ok (a, r), db2, clock2)
          | .error e => (.error ⟨401, e.message⟩, db, clock)
        else
          (.error ⟨401, "Refresh token is expired or used"⟩, db, clock)

/-- Models `verifyJWT` (src/unnamed/part_001 lines 5-33), the non-optional
`authenticate`: extract the access token, verify it, load the principal with
password and refresh token stripped; any failure becomes a 401. -/
def verifyJWT (db : List User) (now : Nat) (tok : Option Token) : Except ApiError SafeUser :=
  match tok with
  | none => .error ⟨401, "Unauthorized request"⟩
  | some t =>
    match jwtVerify t ACCESS_TOKEN_SECRET now with
    | none => .error ⟨401, "jwt verification failed"⟩
    | some uid =>
      match findById db uid with
      | none => .error ⟨401, "Invalid Access Token"⟩
      | some u => .ok u.strip

/-- Models the parallel middleware copy in
src/src/middlewares/auth.middleware.js lines 7-26, which calls
`jwt.verifyJWT` — a function that does not exist on the `jsonwebtoken`
module. Whenever a token is present that call raises a `TypeError`, which the
catch block converts to a 401, so no request with a token can ever pass. -/
def verifyJWTMiddlewareSrc (_db : List User) (_now : Nat) (tok : Option Token) :
    Except ApiError SafeUser :=
  match tok with
  | none => .error ⟨401, "unauthorized request"⟩
  | some _ => .error ⟨401, "jwt.verifyJWT is not a function"⟩

/-- Models `verifyJWTOptional` (src/unnamed/part_000 lines 7-26), the
optional `authenticate`: the inner body, which may throw (modelled with
`Except`), wrapped in the catch that swallows every error and proceeds.
`Except.ok r` means `next()` was reached with `r` the attached principal. -/
def verifyJWTOptionalTry (db : List User) (now : Nat) (tok : Option Token) :
    Except ApiError (Option SafeUser) :=
  match tok with
  | none => .ok none
  | some t =>
    let inner : Except ApiError (Option SafeUser) :=
      match jwtVerify t ACCESS_TOKEN_SECRET now with
      | none => .error ⟨401, "jwt verification failed"⟩
      | some uid => .ok ((findById db uid).map User.strip)
    match inner with
    | .error _ => .ok none
    | .ok r => .ok r

/-- Models `logoutUser` (src/src/controllers/user.controller.js lines
146-170), the `revoke` operation: `findByIdAndUpdate` with
`$unset: { refreshToken: 1 }` — the refresh-token field and nothing else is
removed from the principal's document. -/
def logoutUser (db : List User) (uid : Nat) : List User :=
  updateById db uid (fun u => { u with refreshToken := none })

/-- The phase of one in-flight `rotate` request, decomposed at its `await`
points: `start` (about to verify and load), `loaded` (holding the snapshot
read from the store, about to compare and write), `done`. -/
inductive RotPhase where
  | start
  | loaded (snapshot : User)
  | done (res : Except ApiError (Token × Token))
deriving DecidableEq, Repr

/-- Shared store plus the phases of two concurrent `rotate(T)` requests. -/
structure RaceState where
  db : List User
  clock : Nat
  ph1 : RotPhase
  ph2 : RotPhase
deriving DecidableEq, Repr

/-- One atomic step of a `rotate(T)` request against the shared store,
following `refreshAccessToken`: the `start` step verifies the token and
reads the principal (`await User.findById`); the `loaded` step compares the
presented token against the snapshot's stored token and, on match, runs
`generateAccessAndRefreshToken` (re-read, sign, `save()`). The comparison
uses the snapshot, which is what makes the read-compare-write non-atomic. -/
def rotateStep (T : Token) (db : List User) (clock : Nat) :
    RotPhase → RotPhase × List User × Nat
  | .start =>
    match jwtVerify T REFRESH_TOKEN_SECRET clock with
    | none => (.done (.error ⟨401, "jwt verification failed"⟩), db, clock)
    | some uid =>
      match findById db uid with
      | none => (.done (.error ⟨401, "Invalid refresh token"⟩), db, clock)
      | some u => (.loaded u, db, clock)
  | .loaded u =>
    if u.refreshToken = some T then
      match generateAccessAndRefreshToken db clock u.id with
      | .ok (a, r, db2, clock2) => (.done (.ok (a, r)), db2, clock2)
      | .error e => (.done (.error ⟨401, e.message⟩), db, clock)
    else
      (.done (.error ⟨401, "Refresh token is expired or used"⟩), db, clock)
  | .done r => (.done r, db, clock)

/-- Run a schedule (list of thread choices, `false` = request 1, `true` =
request 2) of interleaved `rotate(T)` steps over the shared state. -/
def runRace (T : Token) (sched : List Bool) (s : RaceState) : RaceState :=
  match sched with
  | [] => s
  | true :: rest =>
    let r := rotateStep T s.db s.clock s.ph2
    runRace T rest ⟨r.2.1, r.2.2, s.ph1, r.1⟩
  | false :: rest =>
    let r := rotateStep T s.db s.clock s.ph1
    runRace T rest ⟨r.2.1, r.2.2, r.1, s.ph2⟩

/-- A side effect relevant to asset synchronization, in program order:
a Cloudinary upload call, an `fs.unlinkSync` of a staged local file, a
database write persisting a new reference, a Cloudinary destroy of a remote
asset, or a database delete of a whole record. -/
inductive Event where
  | uploadCall (path : String)
  | unlink (path : String)
  | persistWrite (field : String) (url : String)
  | remoteDelete (url : String)
  | dbDelete (id : Nat)
deriving DecidableEq, Repr

/-- The response object of `cloudinary.uploader.upload`: the fields the
controllers read (`url`, `secure_url`, `duration`). -/
structure CloudinaryResponse where
  url : String
  secure_url : String
  duration : Nat
deriving DecidableEq, Repr

/-- Outcome of a remote upload attempt: the remote call either returns a
response or throws. -/
inductive UploadOutcome where
  | success (resp : CloudinaryResponse)
  | failure
deriving DecidableEq, Repr

/-- Models `uploadOnCloudinary` (src/src/utils/cloudinary.js lines 11-26):
with no local path it returns null untouched; otherwise it attempts the
upload and, on success, unlinks the staged file and returns the response,
while on a thrown error the catch block unlinks the staged file and returns
null. Returns the result together with the event trace. -/
def uploadOnCloudinary (outcome : UploadOutcome) (localFilePath : Option String) :
    Option CloudinaryResponse × List Event :=
  match localFilePath with
  | none => (none, [])
  | some p =>
    match outcome with
    | .success resp => (some resp, [.uploadCall p, .unlink p])
    | .failure => (none, [.uploadCall p, .unlink p])

/-- Models `deleteFromCloudinary` (src/src/utils/cloudinary.js lines 28-58)
at the trace level: with a falsy URL it returns without calling the remote
API; otherwise it issues a destroy for the asset. All errors are caught
inside, so the caller observes only the trace. -/
def deleteFromCloudinary (fileUrl : String) : List Event :=
  if fileUrl = "" then [] else [.remoteDelete fileUrl]

/-- Is this event a local staged-file unlink? -/
def isUnlink : Event → Bool
  | .unlink _ => true
  | _ => false

/-- Is this event a remote-asset destroy attempt? -/
def isRemoteDelete : Event → Bool
  | .remoteDelete _ => true
  | _ => false

/-- Is this event a database write persisting a new reference? -/
def isPersistWrite : Event → Bool
  | .persistWrite _ _ => true
  | _ => false

/-- Helper scanning a trace left to right; the flag records whether a
persistence write has been seen yet. -/
def deletesAfterPersistAux : List Event → Bool → Bool
  | [], _ => true
  | .persistWrite _ _ :: rest, _ => deletesAfterPersistAux rest true
  | .remoteDelete _ :: rest, seen => seen && deletesAfterPersistAux rest seen
  | _ :: rest, seen => deletesAfterPersistAux rest seen

/-- Every remote-asset destroy in the trace happens after some persistence
write (the ordering invariant of `replaceAsset`). -/
def deletesAfterPersist (tr : List Event) : Bool :=
  deletesAfterPersistAux tr false

/-- Helper scanning a trace left to right; the flag records whether the
database record delete has been seen yet. -/
def remoteDeletesBeforeDbDeleteAux : List Event → Bool → Bool
  | [], _ => true
  | .dbDelete _ :: rest, _ => remoteDeletesBeforeDbDeleteAux rest true
  | .remoteDelete _ :: rest, seenDb => !seenDb && remoteDeletesBeforeDbDeleteAux rest seenDb
  | _ :: rest, seenDb => remoteDeletesBeforeDbDeleteAux rest seenDb

/-- Every remote-asset destroy in the trace happens before any database
record delete. -/
def remoteDeletesBeforeDbDelete (tr : List Event) : Bool :=
  remoteDeletesBeforeDbDeleteAux tr false

/-- A `Video` document: the fields the video controllers read and write. -/
structure Video where
  id : Nat
  owner : Nat
  title : String
  description : String
  videoFile : String
  thumbnail : String
  duration : Nat
  views : Nat
  isPublished : Bool
deriving DecidableEq, Repr

/-- Models `Video.findById(id)` over the list-of-documents store. -/
def findVideo (db : List Video) (vid : Nat) : Option Video :=
  db.find? (fun v => v.id == vid)

/-- Models `Video.findByIdAndUpdate(id, …)`. -/
def updateVideoById (db : List Video) (vid : Nat) (f : Video → Video) : List Video :=
  db.map (fun v => if v.id = vid then f v else v)

/-- The `$set` document built by `updateVideo`: present fields overwrite,
absent fields are left as they were. -/
def applyVideoUpdate (title description thumb : Option String) (v : Video) : Video :=
  { v with
    title := title.getD v.title
    description := description.getD v.description
    thumbnail := thumb.getD v.thumbnail }

/-- Models `updateUserAvatar` (src/src/controllers/user.controller.js lines
273-303), the avatar `replaceAsset`: reject if no staged file; upload (which
always unlinks the staged file); reject if the upload returned null or no
`secure_url`; capture the old reference from `req.user`; persist the new
reference with `findByIdAndUpdate`; only then best-effort delete the old
remote asset. Returns the HTTP result, the updated store, and the trace. -/
def updateUserAvatar (db : List User) (reqUser : User) (filePath : Option String)
    (outcome : UploadOutcome) :
    Except ApiError (Option SafeUser) × List User × List Event :=
  match filePath with
  | none => (.error ⟨400, "Avatar file is missing"⟩, db, [])
  | some p =>
    match uploadOnCloudinary outcome (some p) with
    | (none, ev) => (.error ⟨400, "Error while uploading avatar"⟩, db, ev)
    | (some resp, ev) =>
      if resp.secure_url = "" then
        (.error ⟨400, "Error while uploading avatar"⟩, db, ev)
      else
        let oldAvatar := reqUser.avatar
        let db2 := updateById db reqUser.id (fun u => { u with avatar := resp.secure_url })
        let ev2 := ev ++ [Event.persistWrite "avatar" resp.secure_url]
        let ev3 := ev2 ++ (if oldAvatar ≠ "" then deleteFromCloudinary oldAvatar else [])
        (.ok ((findById db2 reqUser.id).map User.strip), db2, ev3)

/-- Models `updateUserCoverImage` (src/src/controllers/user.controller.js
lines 305-335), the cover-image `replaceAsset`: same shape as the avatar
flow, on the `coverImage` slot. -/
def updateUserCoverImage (db : List User) (reqUser : User) (filePath : Option String)
    (outcome : UploadOutcome) :
    Except ApiError (Option SafeUser) × List User × List Event :=
  match filePath with
  | none => (.error ⟨400, "Cover image file is missing"⟩, db, [])
  | some p =>
    match uploadOnCloudinary outcome (some p) with
    | (none, ev) => (.error ⟨400, "Error while uploading cover image"⟩, db, ev)
    | (some resp, ev) =>
      if resp.secure_url = "" then
        (.error ⟨400, "Error while uploading cover image"⟩, db, ev)
      else
        let oldCoverImage := reqUser.coverImage
        let db2 := updateById db reqUser.id (fun u => { u with coverImage := resp.secure_url })
        let ev2 := ev ++ [Event.persistWrite "coverImage" resp.secure_url]
        let ev3 := ev2 ++ (if oldCoverImage ≠ "" then deleteFromCloudinary oldCoverImage else [])
        (.ok ((findById db2 reqUser.id).map User.strip), db2, ev3)

/-- Models `updateVideo` (src/src/controllers/video.controller.js lines
265-319), the video-thumbnail `replaceAsset`: load and authorize; when a new
thumbnail is staged, upload it, and — as the source does — call
`deleteFromCloudinary` on the old thumbnail URL *before* the
`findByIdAndUpdate` that persists the new one. When the upload returns null,
the source dereferences `thumbnail.secure_url` on null, raising a TypeError
that the async wrapper surfaces. -/
def updateVideoSrc (db : List Video) (reqUserId : Nat) (videoId : Nat)
    (title description : Option String) (thumbPath : Option String)
    (outcome : UploadOutcome) :
    Except ApiError (Option Video) × List Video × List Event :=
  match findVideo db videoId with
  | none => (.error ⟨404, "No video found"⟩, db, [])
  | some video =>
    if video.owner ≠ reqUserId then
      (.error ⟨403, "You can't edit this video as you are not the owner"⟩, db, [])
    else
      match thumbPath with
      | none =>
        let db2 := updateVideoById db videoId (applyVideoUpdate title description none)
        let ev := [Event.persistWrite "videoMeta" ""]
        match findVideo db2 videoId with
        | none => (.error ⟨500, "Failed to update video details"⟩, db2, ev)
        | some v2 => (.ok (some v2), db2, ev)
      | some p =>
        let oldThumbnailUrl := video.thumbnail
        match uploadOnCloudinary outcome (some p) with
        | (none, ev) =>
          (.error ⟨500, "TypeError: cannot read secure_url of null"⟩, db, ev)
        | (some resp, ev) =>
          if resp.secure_url = "" then
            (.error ⟨400, "Error while uploading thumbnail"⟩, db, ev)
          else
            let ev2 := ev ++ (if oldThumbnailUrl ≠ "" then deleteFromCloudinary oldThumbnailUrl else [])
            let db2 := updateVideoById db videoId
              (applyVideoUpdate title description (some resp.secure_url))
            let ev3 := ev2 ++ [Event.persistWrite "thumbnail" resp.secure_url]
            match findVideo db2 videoId with
            | none => (.error ⟨500, "Failed to update video details"⟩, db2, ev3)
            | some v2 => (.ok (some v2), db2, ev3)

/-- Models `publishAVideo` (src/src/controllers/video.controller.js lines
100-146): validate title/description and both staged files; upload both;
report upload failures as 500 errors; create the record (published) from the
`secure_url`s. -/
def publishAVideoSrc (db : List Video) (ownerId : Nat) (newId : Nat)
    (title description : Option String) (videoPath thumbPath : Option String)
    (vidOutcome thOutcome : UploadOutcome) :
    Except ApiError Video × List Video × List Event :=
  match title, description with
  | some t, some d =>
    match videoPath with
    | none => (.error ⟨400, "Video file is required"⟩, db, [])
    | some vp =>
      match thumbPath with
      | none => (.error ⟨400, "Thumbnail is required"⟩, db, [])
      | some tp =>
        let (vf, ev1) := uploadOnCloudinary vidOutcome (some vp)
        let (th, ev2) := uploadOnCloudinary thOutcome (some tp)
        match vf with
        | none => (.error ⟨500, "Video file upload failed"⟩, db, ev1 ++ ev2)
        | some vresp =>
          match th with
          | none => (.error ⟨500, "Thumbnail upload failed"⟩, db, ev1 ++ ev2)
          | some tresp =>
            let v : Video :=
              ⟨newId, ownerId, t, d, vresp.secure_url, tresp.secure_url, vresp.duration, 0, true⟩
            (.ok v, db ++ [v], ev1 ++ ev2 ++ [Event.persistWrite "videoCreate" vresp.secure_url])
  | _, _ => (.error ⟨400, "Title and description are required"⟩, db, [])

/-- Models the parallel `publishAVideo` copy
(src/src/controllers/video.controller.js lines 515-568): same flow, but
upload failures are reported as 400 errors, the plain `url` fields are used,
and the created record starts unpublished. -/
def publishAVideoAlt (db : List Video) (ownerId : Nat) (newId : Nat)
    (title description : Option String) (videoPath thumbPath : Option String)
    (vidOutcome thOutcome : UploadOutcome) :
    Except ApiError Video × List Video × List Event :=
  match title, description with
  | some t, some d =>
    match videoPath with
    | none => (.error ⟨400, "Video file is required"⟩, db, [])
    | some vp =>
      match thumbPath with
      | none => (.error ⟨400, "Thumbnail is required"⟩, db, [])
      | some tp =>
        let (vf, ev1) := uploadOnCloudinary vidOutcome (some vp)
        let (th, ev2) := uploadOnCloudinary thOutcome (some tp)
        match vf with
        | none => (.error ⟨400, "Video file upload failed"⟩, db, ev1 ++ ev2)
        | some vresp =>
          match th with
          | none => (.error ⟨400, "Thumbnail upload failed"⟩, db, ev1 ++ ev2)
          | some tresp =>
            let v : Video :=
              ⟨newId, ownerId, t, d, vresp.url, tresp.url, vresp.duration, 0, false⟩
            (.ok v, db ++ [v], ev1 ++ ev2 ++ [Event.persistWrite "videoCreate" vresp.url])
  | _, _ => (.error ⟨400, "Title and description are required"⟩, db, [])

/-- Models `deleteVideo` (src/src/controllers/video.controller.js lines
321-373 and its identical parallel copy at lines 762-814): load and
authorize; best-effort destroy the remote video file and thumbnail (errors
swallowed); only then attempt `findByIdAndDelete`, whose failure
(`dbDeleteOk = false`, a null result) is reported as a 400 error while the
record remains in the store. -/
def deleteVideo (db : List Video) (reqUserId : Nat) (videoId : Nat) (dbDeleteOk : Bool) :
    Except ApiError Unit × List Video × List Event :=
  match findVideo db videoId with
  | none => (.error ⟨404, "No video found"⟩, db, [])
  | some video =>
    if video.owner ≠ reqUserId then
      (.error ⟨400, "You can't delete this video as you are not the owner"⟩, db, [])
    else
      let ev1 := if video.videoFile ≠ "" then deleteFromCloudinary video.videoFile else []
      let ev2 := if video.thumbnail ≠ "" then deleteFromCloudinary video.thumbnail else []
      let ev := ev1 ++ ev2 ++ [Event.dbDelete videoId]
      if dbDeleteOk then
        (.ok (), db.filter (fun v => v.id ≠ videoId), ev)
      else
        (.error ⟨400, "Failed to delete the video please try again"⟩, db, ev)

/-- Abbreviation for the access token minted at tick `clock` for `uid`. -/
def mintedAccess (uid clock : Nat) : Token :=
  ⟨uid, clock, clock + ACCESS_TOKEN_TTL, ACCESS_TOKEN_SECRET⟩

/-- Abbreviation for the refresh token minted at tick `clock + 1` for `uid`. -/
def mintedRefresh (uid clock : Nat) : Token :=
  ⟨uid, clock + 1, clock + 1 + REFRESH_TOKEN_TTL, REFRESH_TOKEN_SECRET⟩

/-- Concrete fixture: a refresh token stored on a one-user store. -/
def tokFix : Token := ⟨0, 0, 1000, REFRESH_TOKEN_SECRET⟩

/-- Concrete fixture: the principal holding `tokFix`. -/
def userFix : User := ⟨0, "u", "e", "f", "p", some tokFix, "img/old.jpg", ""⟩

/-- Concrete fixture: the one-user store. -/
def dbFix : List User := [userFix]

/-- The interleaving in which both requests read before either writes. -/
def raceSched : List Bool := [false, true, false, true]

/-- The initial shared state for the race: the fixture store and both
requests about to start. -/
def raceInit : RaceState := ⟨dbFix, 1, .start, .start⟩

/-- Concrete fixture: a stored video owned by principal 7 with existing
remote video file and thumbnail. -/
def videoFix : Video := ⟨1, 7, "t", "d", "vid/file.mp4", "img/oldthumb.jpg", 10, 0, true⟩

/-- Concrete fixture: the one-video store. -/
def vdbFix : List Video := [videoFix]

/-- Concrete fixture: a successful thumbnail upload response. -/
def thumbRespFix : CloudinaryResponse := ⟨"img/new.jpg", "img/new_secure.jpg", 0⟩

/-- The spec's error taxonomy: an error is server-caused when its status is
in the 5xx range, client-caused when in the 4xx range. -/
def serverCaused (e : ApiError) : Bool :=
  decide (500 ≤ e.statusCode)

/-- Key store lemma: looking up after an id-preserving field update is the
lookup in the original store with the update applied to a matching result. -/
theorem findById_updateById (db : List User) (uid x : Nat) (f : User → User)
    (hf : ∀ u, (f u).id = u.id) :
    findById (updateById db uid f) x =
      (findById db x).map (fun u => if u.id = uid then f u else u) := by
  induction db with
  | nil => rfl
  | cons u us ih =>
    have hid : (if u.id = uid then f u else u).id = u.id := by
      by_cases h : u.id = uid <;> simp [h, hf]
    by_cases hx : u.id = x
    · have hT : ((if u.id = uid then f u else u).id == x) = true := by rw [hid, hx]; simp
      have hR : (u.id == x) = true := by simp [hx]
      simp [findById, updateById, List.find?, hT, hR]
    · have hL : ((if u.id = uid then f u else u).id == x) = false := by
        simp [hid, hx]
      have hR : (u.id == x) = false := by simp [hx]
      simp only [findById, updateById, List.map_cons, List.find?, hL, hR]
      exact ih

/-- Stripping ignores the refresh-token field. -/
theorem strip_set_refreshToken (u : User) (r : Option Token) :
    ({ u with refreshToken := r } : User).strip = u.strip := rfl

/-- A found user has the looked-up id. -/
theorem findById_id (db : List User) (uid : Nat) (u : User)
    (h : findById db uid = some u) : u.id = uid := by
  have := List.find?_some h
  simpa using this

/-- `generateAccessAndRefreshToken` on a loadable principal: the exact
tokens, updated store, and advanced clock. -/
theorem generateTokens_ok (db : List User) (clock : Nat) (u : User)
    (hu : findById db u.id = some u) :
    generateAccessAndRefreshToken db clock u.id =
      .ok (mintedAccess u.id clock, mintedRefresh u.id clock,
           updateById db u.id (fun x => { x with refreshToken := some (mintedRefresh u.id clock) }),
           clock + 2) := by
  unfold generateAccessAndRefreshToken
  rw [hu]
  rfl

/-- Claim C1: with the stored long-lived token `T` (minted in the past,
unexpired even two ticks later), a first `rotate(T)` succeeds and persists a
fresh refresh token `T2 ≠ T` on the principal, and an immediately following
second `rotate(T)` fails with a 401 "Refresh token is expired or used" while
leaving the store and clock exactly as the first call left them. -/
theorem rotate_reuse_rejected
    (db : List User) (clock : Nat) (u : User) (T : Token)
    (hu : findById db u.id = some u)
    (hT : u.refreshToken = some T)
    (hTid : T.userId = u.id)
    (hsec : T.secret = REFRESH_TOKEN_SECRET)
    (hiat : T.iat ≤ clock)
    (hexp : clock + 2 < T.exp) :
    ∃ a T2 db2,
      T2 = mintedRefresh u.id clock ∧
      db2 = updateById db u.id (fun x => { x with refreshToken := some T2 }) ∧
      refreshAccessToken db clock (some T) = (.ok (a, T2), db2, clock + 2) ∧
      T2 ≠ T ∧
      findById db2 u.id = some { u with refreshToken := some T2 } ∧
      refreshAccessToken db2 (clock + 2) (some T) =
        (.error ⟨401, "Refresh token is expired or used"⟩, db2, clock + 2) := by
  have hlt : clock < T.exp := by omega
  have hv1 : jwtVerify T REFRESH_TOKEN_SECRET clock = some T.userId := by
    simp [jwtVerify, hsec, hlt]
  have hu' : findById db T.userId = some u := by rw [hTid]; exact hu
  have hgen := generateTokens_ok db clock u hu
  have hfresh : mintedRefresh u.id clock ≠ T := by
    intro h
    have := congrArg Token.iat h
    simp [mintedRefresh] at this
    omega
  have h3 :
      findById (updateById db u.id
          (fun x => { x with refreshToken := some (mintedRefresh u.id clock) })) u.id =
        some { u with refreshToken := some (mintedRefresh u.id clock) } := by
    rw [findById_updateById db u.id u.id
      (fun x => { x with refreshToken := some (mintedRefresh u.id clock) }) (fun x => rfl), hu]
    simp
  refine ⟨mintedAccess u.id clock, mintedRefresh u.id clock, _, rfl, rfl, ?_, hfresh, h3, ?_⟩
  · simp [refreshAccessToken, hv1, hu', hT, hgen]
  · have hfind2 :
        findById (updateById db u.id
            (fun x => { x with refreshToken := some (mintedRefresh u.id clock) })) T.userId =
          some { u with refreshToken := some (mintedRefresh u.id clock) } := by
      rw [hTid]; exact h3
    have hv2 : jwtVerify T REFRESH_TOKEN_SECRET (clock + 2) = some T.userId := by
      simp [jwtVerify, hsec, hexp]
    simp [refreshAccessToken, hv2, hfind2, hfresh]

/-- Witness for C1: the double-rotate theorem applied at the concrete
fixture, with every hypothesis discharged by evaluation. -/
theorem rotate_reuse_rejected_witness :
    ∃ a T2 db2,
      T2 = mintedRefresh userFix.id 5 ∧
      db2 = updateById dbFix userFix.id (fun x => { x with refreshToken := some T2 }) ∧
      refreshAccessToken dbFix 5 (some tokFix) = (.ok (a, T2), db2, 5 + 2) ∧
      T2 ≠ tokFix ∧
      findById db2 userFix.id = some { userFix with refreshToken := some T2 } ∧
      refreshAccessToken db2 (5 + 2) (some tokFix) =
        (.error ⟨401, "Refresh token is expired or used"⟩, db2, 5 + 2) :=
  rotate_reuse_rejected dbFix 5 userFix tokFix (by decide) (by decide) (by decide)
    (by decide) (by decide) (by decide)

/-- Counterexample for claim C3: under the interleaving where both
`rotate(tokFix)` requests load the principal before either writes, BOTH
requests succeed — each minting its own pair — and the stored token is the
second writer's, so it is false that exactly one call succeeds. -/
theorem rotate_race_both_succeed :
    (runRace tokFix raceSched raceInit).ph1 =
      .done (.ok (mintedAccess 0 1, mintedRefresh 0 1)) ∧
    (runRace tokFix raceSched raceInit).ph2 =
      .done (.ok (mintedAccess 0 3, mintedRefresh 0 3)) ∧
    mintedRefresh 0 1 ≠ mintedRefresh 0 3 ∧
    findById (runRace tokFix raceSched raceInit).db 0 =
      some { userFix with refreshToken := some (mintedRefresh 0 3) } := by
  decide

/-- Claim C3 (amended): when the two `rotate(T)` calls do not interleave —
one request completes both its read and its write before the other starts —
exactly one succeeds, the other fails with 401 "Refresh token is expired or
used", and the stored token equals the winner's fresh refresh token. -/
theorem rotate_serialized_exactly_one_wins
    (db : List User) (clock : Nat) (u : User) (T : Token)
    (hu : findById db u.id = some u)
    (hT : u.refreshToken = some T)
    (hTid : T.userId = u.id)
    (hsec : T.secret = REFRESH_TOKEN_SECRET)
    (hiat : T.iat ≤ clock)
    (hexp : clock + 2 < T.exp) :
    ∃ a1 r1 db2,
      r1 = mintedRefresh u.id clock ∧
      db2 = updateById db u.id (fun x => { x with refreshToken := some r1 }) ∧
      runRace T [false, false, true, true] ⟨db, clock, .start, .start⟩ =
        ⟨db2, clock + 2, .done (.ok (a1, r1)),
         .done (.error ⟨401, "Refresh token is expired or used"⟩)⟩ ∧
      findById db2 u.id = some { u with refreshToken := some r1 } := by
  have hlt : clock < T.exp := by omega
  have hv1 : jwtVerify T REFRESH_TOKEN_SECRET clock = some T.userId := by
    simp [jwtVerify, hsec, hlt]
  have hv2 : jwtVerify T REFRESH_TOKEN_SECRET (clock + 2) = some T.userId := by
    simp [jwtVerify, hsec, hexp]
  have hu' : findById db T.userId = some u := by rw [hTid]; exact hu
  have hgen := generateTokens_ok db clock u hu
  have hfresh : mintedRefresh u.id clock ≠ T := by
    intro h
    have := congrArg Token.iat h
    simp [mintedRefresh] at this
    omega
  have h3 :
      findById (updateById db u.id
          (fun x => { x with refreshToken := some (mintedRefresh u.id clock) })) u.id =
        some { u with refreshToken := some (mintedRefresh u.id clock) } := by
    rw [findById_updateById db u.id u.id
      (fun x => { x with refreshToken := some (mintedRefresh u.id clock) }) (fun x => rfl), hu]
    simp
  have hfind2 :
      findById (updateById db u.id
          (fun x => { x with refreshToken := some (mintedRefresh u.id clock) })) T.userId =
        some { u with refreshToken := some (mintedRefresh u.id clock) } := by
    rw [hTid]; exact h3
  have s1 : rotateStep T db clock .start = (.loaded u, db, clock) := by
    simp [rotateStep, hv1, hu']
  have s2 : rotateStep T db clock (.loaded u) =
      (.done (.ok (mintedAccess u.id clock, mintedRefresh u.id clock)),
       updateById db u.id (fun x => { x with refreshToken := some (mintedRefresh u.id clock) }),
       clock + 2) := by
    simp [rotateStep, hT, hgen]
  have s3 : rotateStep T
      (updateById db u.id (fun x => { x with refreshToken := some (mintedRefresh u.id clock) }))
      (clock + 2) .start =
      (.loaded { u with refreshToken := some (mintedRefresh u.id clock) },
       updateById db u.id (fun x => { x with refreshToken := some (mintedRefresh u.id clock) }),
       clock + 2) := by
    simp [rotateStep, hv2, hfind2]
  have s4 : rotateStep T
      (updateById db u.id (fun x => { x with refreshToken := some (mintedRefresh u.id clock) }))
      (clock + 2) (.loaded { u with refreshToken := some (mintedRefresh u.id clock) }) =
      (.done (.error ⟨401, "Refresh token is expired or used"⟩),
       updateById db u.id (fun x => { x with refreshToken := some (mintedRefresh u.id clock) }),
       clock + 2) := by
    simp [rotateStep, hfresh]
  refine ⟨mintedAccess u.id clock, mintedRefresh u.id clock, _, rfl, rfl, ?_, h3⟩
  simp [runRace, s1, s2, s3, s4]

/-- Witness for the amended C3: the serialized-rotation theorem applied at
the concrete fixture, hypotheses discharged by evaluation. -/
theorem rotate_serialized_exactly_one_wins_witness :
    ∃ a1 r1 db2,
      r1 = mintedRefresh userFix.id 5 ∧
      db2 = updateById dbFix userFix.id (fun x => { x with refreshToken := some r1 }) ∧
      runRace tokFix [false, false, true, true] ⟨dbFix, 5, .start, .start⟩ =
        ⟨db2, 5 + 2, .done (.ok (a1, r1)),
         .done (.error ⟨401, "Refresh token is expired or used"⟩)⟩ ∧
      findById db2 userFix.id = some { userFix with refreshToken := some r1 } :=
  rotate_serialized_exactly_one_wins dbFix 5 userFix tokFix (by decide) (by decide)
    (by decide) (by decide) (by decide) (by decide)

/-- Claim C5: immediately after `issue` (`generateAccessAndRefreshToken`),
non-optional `authenticate` (`verifyJWT`) presented with the fresh short
token succeeds at every instant before the token's expiry, attaching the
principal with password and long-lived-token fields stripped; from the
expiry onwards the same call fails with a 401. -/
theorem issue_then_authenticate_until_expiry
    (db : List User) (clock : Nat) (u : User)
    (hu : findById db u.id = some u) :
    ∃ a r db2,
      a = mintedAccess u.id clock ∧
      generateAccessAndRefreshToken db clock u.id = .ok (a, r, db2, clock + 2) ∧
      (∀ now, now < a.exp → verifyJWT db2 now (some a) = .ok u.strip) ∧
      (∀ now, a.exp ≤ now →
        verifyJWT db2 now (some a) = .error ⟨401, "jwt verification failed"⟩) := by
  have hgen := generateTokens_ok db clock u hu
  have h3 :
      findById (updateById db u.id
          (fun x => { x with refreshToken := some (mintedRefresh u.id clock) })) u.id =
        some { u with refreshToken := some (mintedRefresh u.id clock) } := by
    rw [findById_updateById db u.id u.id
      (fun x => { x with refreshToken := some (mintedRefresh u.id clock) }) (fun x => rfl), hu]
    simp
  refine ⟨mintedAccess u.id clock, mintedRefresh u.id clock, _, rfl, hgen, ?_, ?_⟩
  · intro now hnow
    have hlt : now < clock + ACCESS_TOKEN_TTL := by
      simpa [mintedAccess] using hnow
    have hv : jwtVerify (mintedAccess u.id clock) ACCESS_TOKEN_SECRET now = some u.id := by
      simp [jwtVerify, mintedAccess, hlt]
    simp [verifyJWT, hv, h3, User.strip]
  · intro now hnow
    have hge : ¬ now < clock + ACCESS_TOKEN_TTL := by
      simp [mintedAccess] at hnow
      omega
    have hv : jwtVerify (mintedAccess u.id clock) ACCESS_TOKEN_SECRET now = none := by
      simp [jwtVerify, mintedAccess, hge]
    simp [verifyJWT, hv]

/-- Witness for C5: the issue-then-authenticate theorem at the concrete
fixture, hypotheses discharged by evaluation. -/
theorem issue_then_authenticate_until_expiry_witness :
    ∃ a r db2,
      a = mintedAccess userFix.id 5 ∧
      generateAccessAndRefreshToken dbFix 5 userFix.id = .ok (a, r, db2, 5 + 2) ∧
      (∀ now, now < a.exp → verifyJWT db2 now (some a) = .ok userFix.strip) ∧
      (∀ now, a.exp ≤ now →
        verifyJWT db2 now (some a) = .error ⟨401, "jwt verification failed"⟩) :=
  issue_then_authenticate_until_expiry dbFix 5 userFix (by decide)

/-- The parallel middleware copy (src/src/middlewares/auth.middleware.js)
calls the nonexistent `jwt.verifyJWT`, so it rejects every request — with or
without a token — with a 401. Documented here because it contradicts the
working `verifyJWT` in src/unnamed/part_001. -/
theorem authMiddlewareSrc_always_rejects (db : List User) (now : Nat) (tok : Option Token) :
    ∃ e, verifyJWTMiddlewareSrc db now tok = .error e ∧ e.statusCode = 401 := by
  cases tok with
  | none => exact ⟨⟨401, "unauthorized request"⟩, rfl, rfl⟩
  | some t => exact ⟨⟨401, "jwt.verifyJWT is not a function"⟩, rfl, rfl⟩

/-- Claim C7: `revoke` (`logoutUser`) removes exactly the stored long-lived
token — the revoked principal keeps every other field, other principals are
untouched — and non-optional `authenticate` returns identical results on the
store before and after the revoke, for every token and every instant (so
already-issued short tokens stay valid until their natural expiry). -/
theorem revoke_clears_only_refresh_token (db : List User) (uid : Nat) :
    (∀ u, findById db uid = some u →
        findById (logoutUser db uid) uid = some { u with refreshToken := none }) ∧
    (∀ x, x ≠ uid → findById (logoutUser db uid) x = findById db x) ∧
    (∀ now tok, verifyJWT (logoutUser db uid) now tok = verifyJWT db now tok) := by
  have key : ∀ x, findById (logoutUser db uid) x =
      (findById db x).map
        (fun u => if u.id = uid then { u with refreshToken := none } else u) :=
    fun x => findById_updateById db uid x _ (fun u => rfl)
  refine ⟨?_, ?_, ?_⟩
  · intro u hu
    have hid : u.id = uid := findById_id db uid u hu
    rw [key, hu]
    simp [hid]
  · intro x hx
    rw [key]
    cases hf : findById db x with
    | none => rfl
    | some u =>
      have hid : u.id = x := findById_id db x u hf
      simp [hid, hx]
  · intro now tok
    cases tok with
    | none => rfl
    | some t =>
      cases hv : jwtVerify t ACCESS_TOKEN_SECRET now with
      | none => simp [verifyJWT, hv]
      | some uid2 =>
        cases hf : findById db uid2 with
        | none => simp [verifyJWT, hv, key, hf]
        | some u =>
          by_cases h : u.id = uid
          · simp [verifyJWT, hv, key, hf, h, User.strip]
          · simp [verifyJWT, hv, key, hf, h]

/-- Witness for C7: the revoke theorem at the concrete fixture; the frame
conjuncts are instantiated and the hypotheses of the inner implications are
discharged by evaluation. -/
theorem revoke_clears_only_refresh_token_witness :
    findById (logoutUser dbFix userFix.id) userFix.id =
      some { userFix with refreshToken := none } ∧
    findById (logoutUser dbFix userFix.id) 3 = findById dbFix 3 ∧
    verifyJWT (logoutUser dbFix userFix.id) 6 (some (mintedAccess userFix.id 5)) =
      verifyJWT dbFix 6 (some (mintedAccess userFix.id 5)) :=
  ⟨(revoke_clears_only_refresh_token dbFix userFix.id).1 userFix (by decide),
   (revoke_clears_only_refresh_token dbFix userFix.id).2.1 3 (by decide),
   (revoke_clears_only_refresh_token dbFix userFix.id).2.2 6 (some (mintedAccess userFix.id 5))⟩

/-- Claim C8: optional `authenticate` (`verifyJWTOptional`) never fails the
request — it always reaches `next()` — and a principal is attached exactly
when the presented token verifies and the referenced principal exists, in
which case the attached principal is the stripped stored document. -/
theorem optional_auth_never_fails (db : List User) (now : Nat) (tok : Option Token) :
    (∃ r, verifyJWTOptionalTry db now tok = .ok r) ∧
    (∀ p, verifyJWTOptionalTry db now tok = .ok (some p) ↔
      ∃ t u, tok = some t ∧ jwtVerify t ACCESS_TOKEN_SECRET now = some t.userId ∧
             findById db t.userId = some u ∧ p = u.strip) := by
  cases tok with
  | none =>
    refine ⟨⟨none, rfl⟩, ?_⟩
    intro p
    simp [verifyJWTOptionalTry]
  | some t =>
    cases hv : jwtVerify t ACCESS_TOKEN_SECRET now with
    | none =>
      refine ⟨⟨none, by simp [verifyJWTOptionalTry, hv]⟩, ?_⟩
      intro p
      simp [verifyJWTOptionalTry, hv]
    | some uid =>
      have huid : uid = t.userId := by
        unfold jwtVerify at hv
        split at hv
        · injection hv with h
          exact h.symm
        · cases hv
      subst huid
      refine ⟨⟨(findById db t.userId).map User.strip, by simp [verifyJWTOptionalTry, hv]⟩, ?_⟩
      intro p
      cases hf : findById db t.userId with
      | none => simp [verifyJWTOptionalTry, hv, hf]
      | some u => simp [verifyJWTOptionalTry, hv, hf, eq_comm]

/-- Claim C4: `uploadOnCloudinary` with a present staged path unlinks the
staged local file exactly once — the filtered trace is precisely one unlink
of that path — both when the remote upload succeeds and when it throws. -/
theorem staged_file_deleted_exactly_once (outcome : UploadOutcome) (p : String) :
    ((uploadOnCloudinary outcome (some p)).2.filter isUnlink) = [Event.unlink p] ∧
    ((uploadOnCloudinary outcome (some p)).2.filter isUnlink).length = 1 := by
  cases outcome <;> exact ⟨rfl, rfl⟩

/-- Claim C6: avatar `replaceAsset` with a failing remote upload raises a
(400) error, leaves the store untouched, attempts no remote delete, and the
staged local file has been unlinked — the whole outcome is the exact tuple,
plus the two trace projections spelled out. -/
theorem replace_avatar_upload_failure_no_effects (db : List User) (reqUser : User) (p : String) :
    updateUserAvatar db reqUser (some p) .failure =
      (.error ⟨400, "Error while uploading avatar"⟩, db,
       [Event.uploadCall p, Event.unlink p]) ∧
    ((updateUserAvatar db reqUser (some p) .failure).2.2.filter isRemoteDelete) = [] ∧
    ((updateUserAvatar db reqUser (some p) .failure).2.2.filter isUnlink) = [Event.unlink p] :=
  ⟨rfl, rfl, rfl⟩

/-- Claim C2 evidence: in `updateVideo` (video-thumbnail replacement), on
the success path with an existing old thumbnail, the remote delete of the
old thumbnail is attempted BEFORE the database write persisting the new
reference — the trace is upload, unlink, remoteDelete(old), persistWrite —
violating the new-persisted-before-old-deleted ordering that the avatar and
cover flows follow and that the source's own comment claims. -/
theorem updateVideo_deletes_old_before_persist :
    (updateVideoSrc vdbFix 7 1 none none (some "staged-thumb.png")
        (.success thumbRespFix)).2.2 =
      [Event.uploadCall "staged-thumb.png", Event.unlink "staged-thumb.png",
       Event.remoteDelete "img/oldthumb.jpg",
       Event.persistWrite "thumbnail" "img/new_secure.jpg"] ∧
    deletesAfterPersist
      (updateVideoSrc vdbFix 7 1 none none (some "staged-thumb.png")
        (.success thumbRespFix)).2.2 = false := by
  exact ⟨by decide, by decide⟩

/-- Counterexample for claim C9: an avatar-replacement remote-upload failure
is surfaced as a 400 — a client-caused error, not a server-caused one. -/
theorem upload_failure_surfaced_as_client_error :
    (updateUserAvatar dbFix userFix (some "staged.png") .failure).1 =
      .error ⟨400, "Error while uploading avatar"⟩ ∧
    serverCaused ⟨400, "Error while uploading avatar"⟩ = false :=
  ⟨rfl, rfl⟩

/-- Claim C9 (amended): remote-upload failures are surfaced to the caller in
every uploading operation, but only `publishAVideo` in
src/src/controllers/video.controller.js uses a server-caused 500; avatar
replacement, cover-image replacement, and the parallel `publishAVideo` copy
surface them as client-caused 400s. -/
theorem upload_failure_statuses
    (db : List User) (vdb : List Video) (reqUser : User) (ownerId newId : Nat)
    (t d vp tp p : String) (th : UploadOutcome) :
    (publishAVideoSrc vdb ownerId newId (some t) (some d) (some vp) (some tp)
        .failure th).1 = .error ⟨500, "Video file upload failed"⟩ ∧
    serverCaused ⟨500, "Video file upload failed"⟩ = true ∧
    (updateUserAvatar db reqUser (some p) .failure).1 =
      .error ⟨400, "Error while uploading avatar"⟩ ∧
    (updateUserCoverImage db reqUser (some p) .failure).1 =
      .error ⟨400, "Error while uploading cover image"⟩ ∧
    (publishAVideoAlt vdb ownerId newId (some t) (some d) (some vp) (some tp)
        .failure th).1 = .error ⟨400, "Video file upload failed"⟩ ∧
    serverCaused ⟨400, "Video file upload failed"⟩ = false := by
  refine ⟨?_, rfl, rfl, rfl, ?_, rfl⟩ <;> cases th <;> rfl

/-- Claim C10: `deleteVideo` on a loadable, owned video attempts the
best-effort remote deletes of the video file and thumbnail strictly before
the database record delete; when the database delete then fails, the
operation reports a 400 error while the record is still in the store, the
remote deletes having already been attempted. -/
theorem deleteVideo_remote_deletes_precede_db_delete
    (db : List Video) (uid vid : Nat) (ok : Bool) (v : Video)
    (hv : findVideo db vid = some v)
    (hown : v.owner = uid) :
    remoteDeletesBeforeDbDelete (deleteVideo db uid vid ok).2.2 = true ∧
    Event.dbDelete vid ∈ (deleteVideo db uid vid ok).2.2 ∧
    (v.videoFile ≠ "" → Event.remoteDelete v.videoFile ∈ (deleteVideo db uid vid ok).2.2) ∧
    (v.thumbnail ≠ "" → Event.remoteDelete v.thumbnail ∈ (deleteVideo db uid vid ok).2.2) ∧
    (ok = false →
      (deleteVideo db uid vid ok).1 =
        .error ⟨400, "Failed to delete the video please try again"⟩ ∧
      (deleteVideo db uid vid ok).2.1 = db) := by
  by_cases h1 : v.videoFile = "" <;> by_cases h2 : v.thumbnail = "" <;> cases ok <;>
    simp [deleteVideo, hv, hown, deleteFromCloudinary, h1, h2,
      remoteDeletesBeforeDbDelete, remoteDeletesBeforeDbDeleteAux]

/-- Witness for C10: the delete-ordering theorem at the concrete fixture
with a failing database delete, hypotheses discharged by evaluation. -/
theorem deleteVideo_remote_deletes_precede_db_delete_witness :
    remoteDeletesBeforeDbDelete (deleteVideo vdbFix 7 1 false).2.2 = true ∧
    Event.dbDelete 1 ∈ (deleteVideo vdbFix 7 1 false).2.2 ∧
    (videoFix.videoFile ≠ "" →
      Event.remoteDelete videoFix.videoFile ∈ (deleteVideo vdbFix 7 1 false).2.2) ∧
    (videoFix.thumbnail ≠ "" →
      Event.remoteDelete videoFix.thumbnail ∈ (deleteVideo vdbFix 7 1 false).2.2) ∧
    (false = false →
      (deleteVideo vdbFix 7 1 false).1 =
        .error ⟨400, "Failed to delete the video please try again"⟩ ∧
      (deleteVideo vdbFix 7 1 false).2.1 = vdbFix) :=
  deleteVideo_remote_deletes_precede_db_delete vdbFix 7 1 false videoFix
    (by decide) (by decide)

/-- Witness for C4: the exactly-once unlink theorem evaluated at a failing
upload of a concrete staged path. -/
theorem staged_file_deleted_exactly_once_witness :
    ((uploadOnCloudinary .failure (some "staged.png")).2.filter isUnlink) =
      [Event.unlink "staged.png"] ∧
    ((uploadOnCloudinary .failure (some "staged.png")).2.filter isUnlink).length = 1 :=
  staged_file_deleted_exactly_once .failure "staged.png"

/-- Witness for C6: the no-effects theorem evaluated at the concrete
fixture store and a concrete staged path. -/
theorem replace_avatar_upload_failure_no_effects_witness :
    updateUserAvatar dbFix userFix (some "staged.png") .failure =
      (.error ⟨400, "Error while uploading avatar"⟩, dbFix,
       [Event.uploadCall "staged.png", Event.unlink "staged.png"]) ∧
    ((updateUserAvatar dbFix userFix (some "staged.png") .failure).2.2.filter
      isRemoteDelete) = [] ∧
    ((updateUserAvatar dbFix userFix (some "staged.png") .failure).2.2.filter
      isUnlink) = [Event.unlink "staged.png"] :=
  replace_avatar_upload_failure_no_effects dbFix userFix "staged.png"

/-- Witness for C8: the optional-authenticate theorem evaluated at the
fixture store with a fresh access token presented before its expiry. -/
theorem optional_auth_never_fails_witness :
    (∃ r, verifyJWTOptionalTry dbFix 6 (some (mintedAccess 0 5)) = .ok r) ∧
    (∀ p, verifyJWTOptionalTry dbFix 6 (some (mintedAccess 0 5)) = .ok (some p) ↔
      ∃ t u, (some (mintedAccess 0 5) : Option Token) = some t ∧
             jwtVerify t ACCESS_TOKEN_SECRET 6 = some t.userId ∧
             findById dbFix t.userId = some u ∧ p = u.strip) :=
  optional_auth_never_fails dbFix 6 (some (mintedAccess 0 5))

/-- Witness for the amended C9: the status theorem evaluated at concrete
stores, a concrete principal, and concrete staged paths. -/
theorem upload_failure_statuses_witness :
    (publishAVideoSrc vdbFix 7 2 (some "t") (some "d") (some "v.mp4") (some "th.png")
        .failure .failure).1 = .error ⟨500, "Video file upload failed"⟩ ∧
    serverCaused ⟨500, "Video file upload failed"⟩ = true ∧
    (updateUserAvatar dbFix userFix (some "a.png") .failure).1 =
      .error ⟨400, "Error while uploading avatar"⟩ ∧
    (updateUserCoverImage dbFix userFix (some "a.png") .failure).1 =
      .error ⟨400, "Error while uploading cover image"⟩ ∧
    (publishAVideoAlt vdbFix 7 2 (some "t") (some "d") (some "v.mp4") (some "th.png")
        .failure .failure).1 = .error ⟨400, "Video file upload failed"⟩ ∧
    serverCaused ⟨400, "Video file upload failed"⟩ = false :=
  upload_failure_statuses dbFix vdbFix userFix 7 2 "t" "d" "v.mp4" "th.png" "a.png" .failure
